import Mathlib

/-!
Verification development for the training orchestration core of
`openfold/train.py` and the inference driver
`deepcam/src/deepCam/driver/inference.py`.

The Python code is shallowly embedded: pure computations become Lean
functions, the side-effecting statements of the training loop and of the
startup sequence become explicit event traces (lists of events in program
order), and Python integers become `Int` with Python's floor-style `%`
modelled by `Int.fmod`.
-/

/-- Python's `%` operator on integers is floored modulo: the result has the
sign of the divisor.  `Int.fmod` matches it exactly for every divisor. -/
def pymod (a b : Int) : Int := Int.fmod a b

/-- The command-line configuration surface of `openfold/train.py`
(`parse_args`).  Filesystem-path arguments and free-form dataset filters are
omitted: no claim depends on them.  Numeric arguments are Python `int`s
(`Int` here), `--precision` is a string restricted by `choices`, and
`store_true` flags are `Bool`. -/
structure Args where
  target_avg_lddt_ca_value : ℚ
  precision : String
  seed : String
  num_train_iters : Int
  log_every_iters : Int
  checkpoint_every_iters : Int
  keep_last_checkpoints : Int
  val_every_iters : Int
  keep_best_checkpoints : Int
  keep_val_checkpoints : Bool
  device_batch_size : Int
  warmup_lr_length : Int
  init_lr_length : Int
  gradient_clipping : Bool
  gradient_accumulation_iters : Int
  save_process_logs : Bool
  distributed : Bool
  deriving Repr, DecidableEq

/-- The `choices` list of the `--precision` argument. -/
def precisionChoices : List String := ["fp32", "tf32", "bf16", "fp16", "amp"]

/-- Default value of `--log_every_iters`; a non-positive value is documented
to disable log saving. -/
def default_log_every_iters : Int := -1

/-- Default value of `--checkpoint_every_iters`; a non-positive value is
documented to disable checkpoint saving. -/
def default_checkpoint_every_iters : Int := 0

/-- Whether `parse_args` accepts a configuration: the argparse `choices`
restriction on `--precision` together with the `assert` statements at the end
of `parse_args` (checkpoint cadence divides validation cadence when
checkpointing is on; log cadence divides validation cadence and checkpoint
cadence when logging is on; and every cadence/length is divisible by the
gradient accumulation window, whose size must be at least 1).  All `%` are
Python's floored modulo. -/
def parse_args_accepts (a : Args) : Bool :=
  decide (a.precision ∈ precisionChoices) &&
  (if a.checkpoint_every_iters > 0 then
    decide (pymod a.val_every_iters a.checkpoint_every_iters = 0)
   else true) &&
  (if a.log_every_iters > 0 then
    decide (pymod a.val_every_iters a.log_every_iters = 0) &&
    (if a.checkpoint_every_iters > 0 then
      decide (pymod a.checkpoint_every_iters a.log_every_iters = 0)
     else true)
   else true) &&
  decide (a.gradient_accumulation_iters ≥ 1) &&
  decide (pymod a.num_train_iters a.gradient_accumulation_iters = 0) &&
  decide (pymod a.val_every_iters a.gradient_accumulation_iters = 0) &&
  decide (pymod a.checkpoint_every_iters a.gradient_accumulation_iters = 0) &&
  decide (pymod a.log_every_iters a.gradient_accumulation_iters = 0) &&
  decide (pymod a.warmup_lr_length a.gradient_accumulation_iters = 0) &&
  decide (pymod a.init_lr_length a.gradient_accumulation_iters = 0)

/-- Events of the startup sequence of `training(args)`, in program order:
`torch.distributed.init_process_group` (distributed only), then
`torch.cuda.set_device`, then the precision dispatch
(`disable_tf32`/`enable_tf32`, or a raised `NotImplementedError` /
`ValueError`), and only after that the creation of training state (datasets,
model, loss, optimizer, SWA shadow, checkpoint resume, samplers,
dataloaders, LR scheduler). -/
inductive StartupEv where
  | initProcessGroup
  | setDevice
  | configurePrecision
  | fatal (msg : String)
  | createTrainingState
  deriving Repr, DecidableEq

/-- The event trace of the startup part of `training(args)` (everything
before the iteration loop), cut off at the first raised exception. -/
def trainingStartupTrace (a : Args) : List StartupEv :=
  (if a.distributed then [StartupEv.initProcessGroup] else []) ++
  [StartupEv.setDevice] ++
  (if a.precision = "fp32" ∨ a.precision = "tf32" then
    [StartupEv.configurePrecision, StartupEv.createTrainingState]
   else if a.precision = "bf16" ∨ a.precision = "fp16" ∨ a.precision = "amp" then
    [StartupEv.fatal "NotImplementedError"]
   else
    [StartupEv.fatal "ValueError"])

/-- The startup trace of the whole program `training(parse_args())`: when
`parse_args` rejects the configuration (an argparse error or a failed
`assert`), the process dies before `training` runs, so no startup event of
`training` ever happens. -/
def programStartupTrace (a : Args) : List StartupEv :=
  if parse_args_accepts a then trainingStartupTrace a else []

/-- Rendering of the claim that an unsupported precision mode is fatal
before any side effects: the run either dies during argument parsing (empty
training trace) or its very first training event is the raised error. -/
def fatalBeforeAnySideEffect (a : Args) : Prop :=
  programStartupTrace a = [] ∨ ∃ msg, programStartupTrace a = [StartupEv.fatal msg]

/-- Precision modes the program can actually run: `training` raises on every
other value (`bf16`, `fp16`, `amp` raise `NotImplementedError`, anything
else `ValueError`). -/
def implementedPrecision (p : String) : Bool :=
  decide (p = "fp32" ∨ p = "tf32")

/-- Modelled from the spec: `get_seed_from_string` (in `openfold/helpers.py`,
not part of the sources here) is a "deterministic mapping from a human seed
string + role tag → integer seed, reused identically across restarts".  Any
fixed pure function satisfies that; a polynomial string hash is used. -/
def get_seed_from_string (s : String) : Int :=
  (s.toList.foldl (fun h c => (h * 31 + c.toNat) % 2 ^ 64) 7 : Nat)

/-- Modelled from the spec: `TORCH_SEED_MODULUS` (in
`openfold/torch_utils.py`, not part of the sources here) is the positive
modulus applied to per-iteration seeds before `torch.manual_seed`; torch
seeds are 64-bit. -/
def TORCH_SEED_MODULUS : Int := 2 ^ 64

/-- The base training seed of the loop:
`get_seed_from_string(f"training_seed_{args.seed}")`. -/
def training_seed_of (seed : String) : Int :=
  get_seed_from_string ("training_seed_" ++ seed)

/-- Events of one iteration of the training loop of `training(args)`, in
program order. -/
inductive Ev where
  | manualSeed (s : Int)
  | fetchBatch
  | forwardPass
  | zeroGrad
  | backwardPass
  | clipGradNorm
  | optimizerStep
  | swaUpdate
  | reduceLossesAvg
  | saveLogs
  | runValidation
  | gatherValMetrics
  | computeStopFlag (stop : Bool)
  | broadcastStopFlag
  | saveCheckpoint
  | breakLoop
  | lrSchedulerStep
  deriving Repr, DecidableEq

/-- Which events mutate the model parameters: only `optimizer.step()`.
(`backward` accumulates gradients, `clip_grad_norm_` rescales gradients,
and the SWA update writes the shadow copy, not the live parameters.) -/
def mutatesParams : Ev → Bool
  | Ev.optimizerStep => true
  | _ => false

/-- `is_logging_enabled = bool(args.log_every_iters > 0)`. -/
def is_logging_enabled (a : Args) : Bool :=
  decide (a.log_every_iters > 0)

/-- `is_validation = bool(iteration % args.val_every_iters == 0)`. -/
def is_validation (a : Args) (iteration : Int) : Bool :=
  decide (pymod iteration a.val_every_iters = 0)

/-- The stop decision computed on the coordinating (main) process:
`val_avg_lddt_ca >= args.target_avg_lddt_ca_value`. -/
def main_stop_decision (val_avg_lddt_ca target_avg_lddt_ca_value : ℚ) : Bool :=
  decide (val_avg_lddt_ca ≥ target_avg_lddt_ca_value)

/-- The local `stop_training_flag` tensor before the broadcast: ones on the
main process when the decision is to stop, zeros (continue) everywhere
else. -/
def local_stop_flag (is_main_process main_decision : Bool) : Bool :=
  if is_main_process then main_decision else false

/-- The `stop_training_flag` value after `torch.distributed.broadcast` from
`main_rank` (distributed mode overwrites every process's flag with the main
process's decision; otherwise each process keeps its local flag). -/
def stop_flag_after_broadcast (a : Args) (is_main_process main_decision : Bool) : Bool :=
  if a.distributed then main_decision else local_stop_flag is_main_process main_decision

/-- Whether the `break` at the bottom of the loop body fires:
`if is_validation and stop_training_flag`. -/
def should_stop (a : Args) (is_main_process main_decision : Bool) (iteration : Int) : Bool :=
  is_validation a iteration && stop_flag_after_broadcast a is_main_process main_decision

/-- Whether this iteration writes a checkpoint (main process only, positive
cadence, cadence boundary). -/
def saves_checkpoint (a : Args) (is_main_process : Bool) (iteration : Int) : Bool :=
  is_main_process && decide (a.checkpoint_every_iters > 0) &&
    decide (pymod iteration a.checkpoint_every_iters = 0)

/-- All events of one execution of the training-loop body except the final
break-or-LR-step, in the order of `training`'s source: seed, batch fetch,
forward pass, conditional `zero_grad`, backward pass, window-boundary
clip/step/SWA block, loss averaging and log saving, validation block
(runner, distributed gather, main-only stop decision, broadcast), and the
checkpoint write. -/
def iterBodyPre (a : Args) (swa_enabled is_main_process : Bool)
    (training_seed : Int) (main_decision : Bool) (iteration : Int) : List Ev :=
  [Ev.manualSeed (pymod (training_seed + iteration) TORCH_SEED_MODULUS),
   Ev.fetchBatch, Ev.forwardPass] ++
  (if pymod (iteration - 1) a.gradient_accumulation_iters = 0 then [Ev.zeroGrad] else []) ++
  [Ev.backwardPass] ++
  (if pymod iteration a.gradient_accumulation_iters = 0 then
    (if a.gradient_clipping then [Ev.clipGradNorm] else []) ++
    [Ev.optimizerStep] ++
    (if swa_enabled then [Ev.swaUpdate] else [])
   else []) ++
  (if is_logging_enabled a then
    (if a.distributed then [Ev.reduceLossesAvg] else [])
   else []) ++
  (if is_logging_enabled a ∧ pymod iteration a.log_every_iters = 0 then
    [Ev.saveLogs]
   else []) ++
  (if is_validation a iteration then
    [Ev.runValidation] ++
    (if a.distributed then [Ev.gatherValMetrics] else []) ++
    (if is_main_process then [Ev.computeStopFlag main_decision] else []) ++
    (if a.distributed then [Ev.broadcastStopFlag] else [])
   else []) ++
  (if saves_checkpoint a is_main_process iteration then [Ev.saveCheckpoint] else [])

/-- The full event trace of one execution of the training-loop body: the
body proper followed by either the `break` (when this is a validation
iteration whose stop flag is set) or the LR scheduler step for the next
iteration. -/
def iterBody (a : Args) (swa_enabled is_main_process : Bool)
    (training_seed : Int) (main_decision : Bool) (iteration : Int) : List Ev :=
  iterBodyPre a swa_enabled is_main_process training_seed main_decision iteration ++
  (if should_stop a is_main_process main_decision iteration then [Ev.breakLoop]
   else [Ev.lrSchedulerStep])

/-- The `torch.manual_seed` arguments occurring in an event trace, in
order. -/
def seedsApplied : List Ev → List Int
  | [] => []
  | Ev.manualSeed s :: rest => s :: seedsApplied rest
  | _ :: rest => seedsApplied rest

/-- The iteration numbers the training loop ranges over:
`range(first_iteration, args.num_train_iters + 1)`. -/
def loopIterations (a : Args) (first_iteration : Int) : List Int :=
  (List.range (a.num_train_iters + 1 - first_iteration).toNat).map
    (fun k => first_iteration + (k : Int))

/-- Whether the loop body at `iteration` ends in `break`, with the main
process's stop decision computed from the aggregated validation metric at
that iteration (the oracle `metricAt`). -/
def breaksAt (a : Args) (metricAt : Int → ℚ) (is_main_process : Bool) (iteration : Int) : Bool :=
  should_stop a is_main_process
    (main_stop_decision (metricAt iteration) a.target_avg_lddt_ca_value) iteration

/-- The iteration at which a process leaves the training loop through the
stop-decision `break` (`none` when the loop instead runs to the iteration
cap). -/
def exitIteration (a : Args) (metricAt : Int → ℚ) (is_main_process : Bool)
    (first_iteration : Int) : Option Int :=
  (loopIterations a first_iteration).find? (breaksAt a metricAt is_main_process)

/-- Model mode, toggled by `module.train()` / `module.eval()`. -/
inductive Mode where
  | train
  | eval
  deriving Repr, DecidableEq

/-- One validation batch as the runner sees it: the `val_batch["id"]` list of
4-tuples `(code, val_index, chain_index, pdb_chain_id)` plus the data the
external metric computation consumes (abstracted: the claims only depend on
the id list and on the produced record fields). -/
structure ValBatch where
  ids : List (Nat × Nat × Nat × String)
  deriving Repr, DecidableEq

/-- One per-sample validation record as built by `validation`: the computed
`lddt_ca` metric plus `val_index`, `pdb_chain_id` and the measured
duration. -/
structure ValRecord where
  lddt_ca : ℚ
  val_index : Nat
  pdb_chain_id : String
  duration : ℚ
  deriving Repr, DecidableEq

/-- The record `validation` appends for a batch whose id list is the
singleton `[t]`:  metrics from `compute_validation_metrics` (abstracted by
the oracle `lddtOf`), `val_index = id_tuple[1]`, `pdb_chain_id =
id_tuple[3]`, and the measured duration (oracle `durOf`). -/
def valRecordOf (lddtOf durOf : ValBatch → ℚ) (b : ValBatch)
    (t : Nat × Nat × Nat × String) : ValRecord :=
  { lddt_ca := lddtOf b
    val_index := t.2.1
    pdb_chain_id := t.2.2.2
    duration := durOf b }

/-- The loop of `validation`, with the model mode threaded explicitly.  Each
batch must satisfy `assert len(val_batch["id"]) == 1`; a failing assert
raises out of the loop, and since `alphafold.train()` is only executed after
the loop, the model is left in whatever mode it had at the raise point
(evaluation mode).  On normal completion the mode is set back to `train`
and the record list is returned. -/
def validationLoop (lddtOf durOf : ValBatch → ℚ) :
    List ValBatch → List ValRecord → Mode × Except String (List ValRecord)
  | [], acc => (Mode.train, Except.ok acc.reverse)
  | b :: rest, acc =>
    match b.ids with
    | [t] => validationLoop lddtOf durOf rest (valRecordOf lddtOf durOf b t :: acc)
    | _ => (Mode.eval, Except.error "AssertionError: len of val_batch id list is not 1")

/-- `validation(alphafold, validation_dataloader, device)`: set the model to
evaluation mode, run the loop over the full held-out set once, and return
the final model mode together with the outcome (the per-sample records, or
the exception escaping the loop). -/
def validation (lddtOf durOf : ValBatch → ℚ) (batches : List ValBatch) :
    Mode × Except String (List ValRecord) :=
  validationLoop lddtOf durOf batches []

/-- The coordinating process's post-gather aggregation in `training`: mean
`lddt_ca` over the gathered records, the gathered size, the
`assert val_size == len(validation_dataset)` integrity check, and the
throughput.  A failed assert is a raised `AssertionError`, i.e. the `error`
branch. -/
def mainValidationSummary (val_metrics_list : List ValRecord)
    (validation_dataset_len : Nat) (perf_validation : ℚ) :
    Except String (ℚ × Nat × ℚ) :=
  let val_avg_lddt_ca :=
    (val_metrics_list.map (fun r => r.lddt_ca)).sum / (val_metrics_list.length : ℚ)
  let val_size := val_metrics_list.length
  if val_size = validation_dataset_len then
    Except.ok (val_avg_lddt_ca, val_size, (val_size : ℚ) / perf_validation)
  else
    Except.error "AssertionError: val_size does not equal len of validation_dataset"

/-- Gradient mode: inside a `torch.no_grad()` block gradients are
disabled. -/
inductive GradMode where
  | enabled
  | disabled
  deriving Repr, DecidableEq

/-- The loop of the deepCam `inference` driver: for each `(inputs, filename)`
batch of the loader, in yield order, move the inputs to the device, run the
forward pass (inside the `torch.no_grad()` block, so with gradients
disabled), post-process with `argmax(softmax(outputs, 1), 1)`, move the
prediction to host memory, and append one `(filename, prediction)` pair. -/
def inferenceLoop {α β γ δ : Type} (toDevice : α → α) (net : GradMode → α → β)
    (softmax1 : β → β) (argmax1 : β → γ) (cpuNumpy : γ → δ) :
    List (α × String) → List (String × δ) → List (String × δ)
  | [], acc => acc.reverse
  | (inputs, filename) :: rest, acc =>
    inferenceLoop toDevice net softmax1 argmax1 cpuNumpy rest
      ((filename, cpuNumpy (argmax1 (softmax1 (net GradMode.disabled (toDevice inputs))))) :: acc)

/-- `inference(pargs, device, net, inference_loader, logger)`: set the
network to evaluation mode (`net.eval()`), collect one prediction pair per
loader batch under `torch.no_grad()`, and return the complete list.  The
network mode is threaded explicitly: whatever mode the network starts in,
`eval` is set at entry and no statement ever sets `train` again, so the
returned final mode is the mode at every point after entry. -/
def inference {α β γ δ : Type} (start_mode : Mode) (toDevice : α → α)
    (net : GradMode → α → β) (softmax1 : β → β) (argmax1 : β → γ) (cpuNumpy : γ → δ)
    (inference_loader : List (α × String)) : List (String × δ) × Mode :=
  let mode_after_eval := Mode.eval
  (inferenceLoop toDevice net softmax1 argmax1 cpuNumpy inference_loader [], mode_after_eval)

/-- The argparse defaults of `parse_args` (for the fields modelled here). -/
def defaultArgs : Args where
  target_avg_lddt_ca_value := 8/10
  precision := "tf32"
  seed := "1234567890"
  num_train_iters := 80000
  log_every_iters := default_log_every_iters
  checkpoint_every_iters := default_checkpoint_every_iters
  keep_last_checkpoints := 0
  val_every_iters := 200
  keep_best_checkpoints := 0
  keep_val_checkpoints := false
  device_batch_size := 1
  warmup_lr_length := 1000
  init_lr_length := 60000
  gradient_clipping := false
  gradient_accumulation_iters := 1
  save_process_logs := false
  distributed := false

/-- A configuration accepted by `parse_args` although its log cadence (100)
is not a multiple of its validation cadence (200). -/
def argsLog100Val200 : Args :=
  { defaultArgs with log_every_iters := 100 }

/-- An accepted configuration with accumulation window 2, logging enabled,
and distributed mode on. -/
def argsAccum2Dist : Args :=
  { defaultArgs with
      gradient_accumulation_iters := 2
      log_every_iters := 2
      val_every_iters := 2
      distributed := true }

/-- A configuration with accumulation window 2 and `--log_every_iters` left
at its default of -1. -/
def argsAccum2LogDefault : Args :=
  { defaultArgs with gradient_accumulation_iters := 2 }

/-- An accepted distributed configuration with the unimplemented precision
mode `bf16`. -/
def argsBf16Dist : Args :=
  { defaultArgs with precision := "bf16", distributed := true }

/-- A configuration whose precision string is outside the argparse
`choices` list. -/
def argsFp64 : Args :=
  { defaultArgs with precision := "fp64" }

/-- An accepted distributed configuration validating and checkpointing at
every iteration over a 3-iteration run. -/
def argsDistVal1 : Args :=
  { defaultArgs with
      num_train_iters := 3
      val_every_iters := 1
      checkpoint_every_iters := 1
      distributed := true }

/-- A validation batch violating the singleton-id assertion (empty id
list). -/
def badValBatch : ValBatch where
  ids := []

/-- A well-formed validation batch with a single id tuple. -/
def goodValBatch : ValBatch where
  ids := [(0, 5, 0, "7xyz_A")]

/-! ## Helper lemmas -/

theorem pymod_eq_emod (a : Int) {b : Int} (hb : 0 ≤ b) : pymod a b = a % b :=
  Int.fmod_eq_emod a hb

theorem pymod_neg_one (K : Int) (hK : 1 < K) : pymod (-1) K = K - 1 := by
  rw [pymod_eq_emod _ (by omega)]
  have h1 : (-1 : Int) % K = (-1 + K * 1) % K := (Int.add_mul_emod_self_left (-1) K 1).symm
  have h2 : (-1 + K * 1 : Int) = K - 1 := by ring
  rw [h1, h2, Int.emod_eq_of_lt (by omega) (by omega)]

theorem mem_ite_list {α : Type} (c : Prop) [Decidable c] (l : List α) (x : α) :
    x ∈ (if c then l else []) ↔ c ∧ x ∈ l := by
  split <;> simp_all

theorem mem_ite_list' {α : Type} (c : Prop) [Decidable c] (l l' : List α) (x : α) :
    x ∈ (if c then l else l') ↔ (c ∧ x ∈ l) ∨ (¬ c ∧ x ∈ l') := by
  split <;> simp_all

theorem seedsApplied_append (l l' : List Ev) :
    seedsApplied (l ++ l') = seedsApplied l ++ seedsApplied l' := by
  induction l with
  | nil => rfl
  | cons e rest ih => cases e <;> simp [seedsApplied, ih]

theorem seedsApplied_ite_nil (c : Prop) [Decidable c] (l : List Ev)
    (h : seedsApplied l = []) : seedsApplied (if c then l else []) = [] := by
  split <;> simp_all [seedsApplied]

theorem seedsApplied_ite_nil' (c : Prop) [Decidable c] (l l' : List Ev)
    (h : seedsApplied l = []) (h' : seedsApplied l' = []) :
    seedsApplied (if c then l else l') = [] := by
  split <;> simp_all

theorem seedsApplied_iterBody (a : Args) (swa_enabled is_main : Bool)
    (ts : Int) (d : Bool) (i : Int) :
    seedsApplied (iterBody a swa_enabled is_main ts d i)
      = [pymod (ts + i) TORCH_SEED_MODULUS] := by
  unfold iterBody iterBodyPre
  simp only [List.append_eq, seedsApplied_append, seedsApplied, seedsApplied_ite_nil,
    seedsApplied_ite_nil', List.append_nil, List.nil_append]

/-! ## Claim theorems -/

/-- C1: in every training-loop iteration, accumulated gradients are reset
(`optimizer.zero_grad`) exactly when `(iteration - 1) % K == 0`, a backward
pass accumulates gradients unconditionally, the optimizer step — the only
parameter-mutating event of the loop body — occurs exactly when
`iteration % K == 0`, and the SWA shadow update occurs exactly then as well
whenever SWA is enabled. -/
theorem grad_accum_window (a : Args) (swa_enabled is_main : Bool)
    (ts : Int) (d : Bool) (i : Int) :
    (Ev.zeroGrad ∈ iterBody a swa_enabled is_main ts d i
      ↔ pymod (i - 1) a.gradient_accumulation_iters = 0)
    ∧ Ev.backwardPass ∈ iterBody a swa_enabled is_main ts d i
    ∧ (Ev.optimizerStep ∈ iterBody a swa_enabled is_main ts d i
      ↔ pymod i a.gradient_accumulation_iters = 0)
    ∧ (Ev.swaUpdate ∈ iterBody a swa_enabled is_main ts d i
      ↔ pymod i a.gradient_accumulation_iters = 0 ∧ swa_enabled = true)
    ∧ (∀ e ∈ iterBody a swa_enabled is_main ts d i,
        mutatesParams e = true → pymod i a.gradient_accumulation_iters = 0) := by
  refine ⟨?_, ?_, ?_, ?_, ?_⟩
  · unfold iterBody iterBodyPre
    simp [mem_ite_list, mem_ite_list']
  · unfold iterBody iterBodyPre
    simp [mem_ite_list, mem_ite_list']
  · unfold iterBody iterBodyPre
    simp [mem_ite_list, mem_ite_list']
  · unfold iterBody iterBodyPre
    simp [mem_ite_list, mem_ite_list']
  · intro e he hmut
    cases e <;> simp [mutatesParams] at hmut
    revert he
    unfold iterBody iterBodyPre
    simp [mem_ite_list, mem_ite_list']

/-- C1 witness: with accumulation window 2, iteration 2 steps the optimizer
and does not reset gradients, while iteration 1 resets gradients. -/
theorem grad_accum_window_witness :
    Ev.optimizerStep ∈ iterBody argsAccum2Dist false true 0 false 2
    ∧ Ev.zeroGrad ∈ iterBody argsAccum2Dist false true 0 false 1 := by
  refine ⟨(grad_accum_window argsAccum2Dist false true 0 false 2).2.2.1.mpr (by decide), ?_⟩
  exact (grad_accum_window argsAccum2Dist false true 0 false 1).1.mpr (by decide)

/-- C4: the seed applied by `torch.manual_seed` before the forward pass of
iteration `i` is exactly `(training_seed + i) % TORCH_SEED_MODULUS`, a
function of the base training seed (derived from the configured seed
string) and the iteration number alone: any two runs with the same
configured seed — whatever their resume point, rank, SWA state, or stop
decisions — apply the identical seed at any common iteration. -/
theorem per_iteration_seed_deterministic (a₁ a₂ : Args) (swa₁ swa₂ m₁ m₂ : Bool)
    (s : String) (d₁ d₂ : Bool) (i : Int) :
    seedsApplied (iterBody a₁ swa₁ m₁ (training_seed_of s) d₁ i)
      = [pymod (training_seed_of s + i) TORCH_SEED_MODULUS]
    ∧ seedsApplied (iterBody a₁ swa₁ m₁ (training_seed_of s) d₁ i)
      = seedsApplied (iterBody a₂ swa₂ m₂ (training_seed_of s) d₂ i) := by
  refine ⟨seedsApplied_iterBody a₁ swa₁ m₁ (training_seed_of s) d₁ i, ?_⟩
  rw [seedsApplied_iterBody, seedsApplied_iterBody]

/-- C7 counterexample: with logging enabled, accumulation window 2 and
distributed mode, iteration 1 is not a window boundary and yet the loop
body averages losses across processes (`dist_reduce_losses_avg`). -/
theorem loss_avg_not_only_at_boundary :
    Ev.reduceLossesAvg ∈ iterBody argsAccum2Dist false true 0 false 1
    ∧ ¬ pymod 1 argsAccum2Dist.gradient_accumulation_iters = 0 := by
  constructor
  · unfold iterBody iterBodyPre
    simp [mem_ite_list, mem_ite_list']
    decide
  · decide

/-- C7 amended: cross-process loss averaging for logging happens at every
iteration at which logging is enabled and the run is distributed — window
boundary or not — and at no other iteration. -/
theorem loss_avg_every_logging_iteration (a : Args) (swa_enabled is_main : Bool)
    (ts : Int) (d : Bool) (i : Int) :
    Ev.reduceLossesAvg ∈ iterBody a swa_enabled is_main ts d i
      ↔ a.log_every_iters > 0 ∧ a.distributed = true := by
  unfold iterBody iterBodyPre
  simp [mem_ite_list, mem_ite_list', is_logging_enabled]

/-- C2: the stop protocol of a validation iteration.  The local stop flag of
a non-coordinating process defaults to zero (continue) and only the
coordinating process computes the stop decision (comparing the mean lDDT-Ca
against the target); in distributed mode the broadcast makes the
coordinating and non-coordinating processes leave the loop through the
stop `break` at the same iteration; and when the break fires it is the very
last event of the iteration body — hence after the iteration's checkpoint
write, which belongs to the body — and the LR schedule is never advanced in
that iteration. -/
theorem stop_decision_protocol (a : Args) (metricAt : Int → ℚ)
    (swa_enabled : Bool) (ts : Int) (d : Bool) (i first : Int)
    (hdist : a.distributed = true) :
    local_stop_flag false d = false
    ∧ (∀ b : Bool, Ev.computeStopFlag b ∉ iterBody a swa_enabled false ts d i)
    ∧ (is_validation a i = true →
        Ev.computeStopFlag d ∈ iterBody a swa_enabled true ts d i)
    ∧ (∀ is_main : Bool, breaksAt a metricAt is_main i
        = (is_validation a i
            && main_stop_decision (metricAt i) a.target_avg_lddt_ca_value))
    ∧ exitIteration a metricAt true first = exitIteration a metricAt false first
    ∧ (should_stop a true d i = true →
        iterBody a swa_enabled true ts d i
          = iterBodyPre a swa_enabled true ts d i ++ [Ev.breakLoop]
        ∧ Ev.lrSchedulerStep ∉ iterBody a swa_enabled true ts d i
        ∧ (saves_checkpoint a true i = true →
            Ev.saveCheckpoint ∈ iterBodyPre a swa_enabled true ts d i)) := by
  refine ⟨rfl, ?_, ?_, ?_, ?_, ?_⟩
  · intro b
    unfold iterBody iterBodyPre
    simp [mem_ite_list, mem_ite_list']
  · intro hval
    unfold iterBody iterBodyPre
    simp [mem_ite_list, mem_ite_list', hval]
  · intro is_main
    simp [breaksAt, should_stop, stop_flag_after_broadcast, hdist]
  · have hpred : breaksAt a metricAt true = breaksAt a metricAt false := by
      funext j
      simp [breaksAt, should_stop, stop_flag_after_broadcast, hdist]
    rw [exitIteration, exitIteration, hpred]
  · intro hss
    refine ⟨by simp [iterBody, hss], ?_, ?_⟩
    · unfold iterBody iterBodyPre
      simp [mem_ite_list, mem_ite_list', hss]
    · intro hsc
      unfold iterBodyPre
      simp [mem_ite_list, mem_ite_list', hsc]

/-- C2 witness: in the concrete distributed run that validates every
iteration with the metric already past the target, the coordinating and
non-coordinating processes exit at the same iteration, the break is the last
event of the body, and the checkpoint write is part of the body preceding
it. -/
theorem stop_decision_protocol_witness :
    exitIteration argsDistVal1 (fun _ => 1) true 1
      = exitIteration argsDistVal1 (fun _ => 1) false 1
    ∧ iterBody argsDistVal1 false true 0 true 1
      = iterBodyPre argsDistVal1 false true 0 true 1 ++ [Ev.breakLoop]
    ∧ Ev.saveCheckpoint ∈ iterBodyPre argsDistVal1 false true 0 true 1 := by
  have h := stop_decision_protocol argsDistVal1 (fun _ => 1) false 0 true 1 1 (by decide)
  have hb := h.2.2.2.2.2 (by decide)
  exact ⟨h.2.2.2.2.1, hb.1, hb.2.2 (by decide)⟩

theorem pymod_zero_left (K : Int) (hK : 0 < K) : pymod 0 K = 0 := by
  rw [pymod_eq_emod _ (by omega), Int.zero_emod]

/-- C3 counterexample: `parse_args` accepts log cadence 100 with validation
cadence 200, although 100 is not a multiple of 200 — acceptance requires the
log cadence to divide the validation cadence, not to be a multiple of it. -/
theorem log_multiple_of_val_counterexample :
    parse_args_accepts argsLog100Val200 = true
    ∧ argsLog100Val200.log_every_iters > 0
    ∧ pymod argsLog100Val200.log_every_iters argsLog100Val200.val_every_iters ≠ 0 :=
  ⟨by decide, by decide, by decide⟩

/-- C3 amended: when log saving is enabled, a configuration is accepted by
`parse_args` only if the log cadence is a multiple of the accumulation
window size and divides the validation cadence (the validation cadence is a
multiple of the log cadence); and a rejected configuration produces no
training startup event at all — in particular no training state. -/
theorem cadence_divisibility_on_accept (a : Args) :
    (parse_args_accepts a = true → a.log_every_iters > 0 →
      pymod a.log_every_iters a.gradient_accumulation_iters = 0
      ∧ pymod a.val_every_iters a.log_every_iters = 0)
    ∧ (parse_args_accepts a = false → programStartupTrace a = []) := by
  constructor
  · intro hacc hlog
    simp only [parse_args_accepts, Bool.and_eq_true, decide_eq_true_eq] at hacc
    obtain ⟨⟨⟨⟨⟨⟨⟨⟨⟨hp, hc1⟩, hc2⟩, hc3⟩, hc4⟩, hc5⟩, hc6⟩, hc7⟩, hc8⟩, hc9⟩ := hacc
    rw [if_pos hlog] at hc2
    simp only [Bool.and_eq_true, decide_eq_true_eq] at hc2
    exact ⟨hc7, hc2.1⟩
  · intro hr
    simp [programStartupTrace, hr]

/-- C3 witness: for the accepted configuration with log cadence 100 the
divisibility facts of the amended claim hold, and a rejected configuration
(window 2, default log cadence) yields no startup event. -/
theorem cadence_divisibility_on_accept_witness :
    (pymod argsLog100Val200.log_every_iters argsLog100Val200.gradient_accumulation_iters = 0
      ∧ pymod argsLog100Val200.val_every_iters argsLog100Val200.log_every_iters = 0)
    ∧ programStartupTrace argsAccum2LogDefault = [] :=
  ⟨(cadence_divisibility_on_accept argsLog100Val200).1 (by decide) (by decide),
   (cadence_divisibility_on_accept argsAccum2LogDefault).2 (by decide)⟩

/-- C9: with accumulation window K > 1 and `--log_every_iters` left at its
default of -1, `parse_args` fails its assertion block, because
`log_every_iters % K` is asserted unconditionally and Python's `(-1) % K`
equals `K - 1`, which is nonzero for `K > 1`; by contrast the disabled
checkpoint cadence 0 always passes its divisibility assert. -/
theorem default_log_with_accum_rejected (a : Args)
    (hK : a.gradient_accumulation_iters > 1)
    (hlog : a.log_every_iters = default_log_every_iters) :
    parse_args_accepts a = false
    ∧ pymod a.log_every_iters a.gradient_accumulation_iters ≠ 0
    ∧ (a.checkpoint_every_iters = 0 →
        pymod a.checkpoint_every_iters a.gradient_accumulation_iters = 0) := by
  have hne : pymod a.log_every_iters a.gradient_accumulation_iters ≠ 0 := by
    rw [hlog]
    show pymod (-1) _ ≠ 0
    rw [pymod_neg_one _ hK]
    omega
  refine ⟨?_, hne, ?_⟩
  · by_contra hacc
    rw [Bool.not_eq_false] at hacc
    simp only [parse_args_accepts, Bool.and_eq_true, decide_eq_true_eq] at hacc
    exact hne hacc.1.1.2
  · intro hc
    rw [hc]
    exact pymod_zero_left _ (by omega)

/-- C9 witness: the concrete configuration with window 2 and the default
log cadence -1 is rejected. -/
theorem default_log_with_accum_rejected_witness :
    parse_args_accepts argsAccum2LogDefault = false :=
  (default_log_with_accum_rejected argsAccum2LogDefault (by decide) (by decide)).1

/-- C5: on the coordinating process, a gathered validation record count that
differs from the validation set size fails the integrity assert: the
aggregation raises instead of returning a summary. -/
theorem gathered_count_mismatch_fatal (val_metrics_list : List ValRecord)
    (validation_dataset_len : Nat) (perf_validation : ℚ)
    (h : val_metrics_list.length ≠ validation_dataset_len) :
    mainValidationSummary val_metrics_list validation_dataset_len perf_validation
      = Except.error "AssertionError: val_size does not equal len of validation_dataset" := by
  simp [mainValidationSummary, h]

/-- C5 witness: gathering no record against a validation set of size 5 is a
fatal assertion failure. -/
theorem gathered_count_mismatch_fatal_witness :
    mainValidationSummary [] 5 1
      = Except.error "AssertionError: val_size does not equal len of validation_dataset" :=
  gathered_count_mismatch_fatal [] 5 1 (by decide)

theorem validationLoop_ok (lddtOf durOf : ValBatch → ℚ) (batches : List ValBatch) :
    ∀ acc : List ValRecord, (∀ b ∈ batches, b.ids.length = 1) →
      (validationLoop lddtOf durOf batches acc).1 = Mode.train
      ∧ ∃ recs, (validationLoop lddtOf durOf batches acc).2 = Except.ok recs
          ∧ recs.length = batches.length + acc.length := by
  induction batches with
  | nil =>
    intro acc _
    exact ⟨rfl, acc.reverse, rfl, by simp⟩
  | cons b rest ih =>
    intro acc h
    obtain ⟨t, ht⟩ := List.length_eq_one.mp (h b (List.mem_cons_self b rest))
    have hstep : validationLoop lddtOf durOf (b :: rest) acc
        = validationLoop lddtOf durOf rest (valRecordOf lddtOf durOf b t :: acc) := by
      simp only [validationLoop, ht]
    rw [hstep]
    obtain ⟨h1, recs, h2, h3⟩ :=
      ih (valRecordOf lddtOf durOf b t :: acc) (fun x hx => h x (List.mem_cons_of_mem b hx))
    refine ⟨h1, recs, h2, ?_⟩
    simp only [List.length_cons] at h3 ⊢
    omega

theorem validationLoop_err (lddtOf durOf : ValBatch → ℚ) (b : ValBatch)
    (post : List ValBatch) (hb : b.ids.length ≠ 1) (pre : List ValBatch) :
    ∀ acc : List ValRecord, (∀ x ∈ pre, x.ids.length = 1) →
      validationLoop lddtOf durOf (pre ++ b :: post) acc
        = (Mode.eval, Except.error "AssertionError: len of val_batch id list is not 1") := by
  induction pre with
  | nil =>
    intro acc _
    rcases hids : b.ids with _ | ⟨t, _ | ⟨u, w⟩⟩
    · simp [validationLoop, hids]
    · exact absurd (by simp [hids]) hb
    · simp [validationLoop, hids]
  | cons p ps ih =>
    intro acc hpre
    obtain ⟨t, ht⟩ := List.length_eq_one.mp (hpre p (by simp))
    have hstep : validationLoop lddtOf durOf ((p :: ps) ++ b :: post) acc
        = validationLoop lddtOf durOf (ps ++ b :: post) (valRecordOf lddtOf durOf p t :: acc) := by
      simp only [List.cons_append, validationLoop, ht, List.append_eq]
    rw [hstep]
    exact ih _ (fun x hx => hpre x (by simp [hx]))

/-- C6 counterexample: when a batch violates the singleton-id assertion, the
exception escapes the validation loop and `alphafold.train()` — which is
only executed after the loop — never runs, so the model is left in
evaluation mode, not restored to training mode. -/
theorem validation_mode_not_restored_on_error :
    (validation (fun _ => 0) (fun _ => 0) [badValBatch]).1 = Mode.eval
    ∧ Mode.eval ≠ Mode.train :=
  ⟨rfl, by decide⟩

/-- C6 amended: `validation` puts the model in evaluation mode and, when
every batch passes the singleton-id assertion, produces exactly one record
per sample over one full pass and restores training mode on exit; but when
some batch fails the assertion, the loop aborts with the exception and the
model is left in evaluation mode (mode restoration is not scoped). -/
theorem validation_scoped_mode (lddtOf durOf : ValBatch → ℚ) (batches : List ValBatch) :
    ((∀ b ∈ batches, b.ids.length = 1) →
      (validation lddtOf durOf batches).1 = Mode.train
      ∧ ∃ recs, (validation lddtOf durOf batches).2 = Except.ok recs
          ∧ recs.length = batches.length)
    ∧ (∀ pre b post, batches = pre ++ b :: post →
        (∀ x ∈ pre, x.ids.length = 1) → b.ids.length ≠ 1 →
        validation lddtOf durOf batches
          = (Mode.eval, Except.error "AssertionError: len of val_batch id list is not 1")) := by
  constructor
  · intro h
    obtain ⟨h1, recs, h2, h3⟩ := validationLoop_ok lddtOf durOf batches [] h
    exact ⟨h1, recs, h2, by simpa using h3⟩
  · intro pre b post hsplit hpre hb
    rw [validation, hsplit]
    exact validationLoop_err lddtOf durOf b post hb pre [] hpre

/-- C6 witness: a run over one well-formed batch ends in training mode; a
run hitting a malformed batch after a well-formed one ends in evaluation
mode. -/
theorem validation_scoped_mode_witness :
    (validation (fun _ => 0) (fun _ => 0) [goodValBatch]).1 = Mode.train
    ∧ (validation (fun _ => 0) (fun _ => 0) [goodValBatch, badValBatch]).1 = Mode.eval := by
  constructor
  · exact ((validation_scoped_mode (fun _ => 0) (fun _ => 0) [goodValBatch]).1 (by decide)).1
  · have h := (validation_scoped_mode (fun _ => 0) (fun _ => 0) [goodValBatch, badValBatch]).2
      [goodValBatch] badValBatch [] rfl (by decide) (by decide)
    rw [h]

/-- C8 counterexample: the accepted distributed configuration with precision
`bf16` reaches process-group initialization and device selection before the
`NotImplementedError` is raised, so the unsupported precision mode is not
fatal before all side effects. -/
theorem precision_fatal_after_side_effects :
    parse_args_accepts argsBf16Dist = true
    ∧ programStartupTrace argsBf16Dist
        = [StartupEv.initProcessGroup, StartupEv.setDevice,
           StartupEv.fatal "NotImplementedError"]
    ∧ ¬ fatalBeforeAnySideEffect argsBf16Dist := by
  have htr : programStartupTrace argsBf16Dist
      = [StartupEv.initProcessGroup, StartupEv.setDevice,
         StartupEv.fatal "NotImplementedError"] := by decide
  refine ⟨by decide, htr, ?_⟩
  intro hcl
  rcases hcl with hcl | ⟨msg, hcl⟩ <;> rw [htr] at hcl <;> simp at hcl

/-- C8 amended: a precision string outside the argparse `choices` list is
rejected during argument parsing, before any side effect; the in-choices but
unimplemented modes `bf16`, `fp16` and `amp` pass parsing and are fatal
inside `training` after process-group initialization (in distributed mode)
and device selection, but still before any training state is created. -/
theorem precision_error_stages (a : Args) :
    (a.precision ∉ precisionChoices → programStartupTrace a = [])
    ∧ ((a.precision = "bf16" ∨ a.precision = "fp16" ∨ a.precision = "amp") →
        StartupEv.createTrainingState ∉ trainingStartupTrace a
        ∧ trainingStartupTrace a
            = (if a.distributed then [StartupEv.initProcessGroup] else [])
              ++ [StartupEv.setDevice, StartupEv.fatal "NotImplementedError"]) := by
  constructor
  · intro h
    have hr : parse_args_accepts a = false := by
      simp [parse_args_accepts, h]
    simp [programStartupTrace, hr]
  · intro h
    have hni : ¬ (a.precision = "fp32" ∨ a.precision = "tf32") := by
      rcases h with h | h | h <;> rw [h] <;> decide
    have htr : trainingStartupTrace a
        = (if a.distributed then [StartupEv.initProcessGroup] else [])
          ++ [StartupEv.setDevice, StartupEv.fatal "NotImplementedError"] := by
      unfold trainingStartupTrace
      rw [if_neg hni, if_pos h]
      simp
    refine ⟨?_, htr⟩
    rw [htr]
    split_ifs <;> simp

/-- C8 witness: the out-of-choices precision `fp64` produces no startup
event at all, while the accepted `bf16` configuration never creates
training state. -/
theorem precision_error_stages_witness :
    programStartupTrace argsFp64 = []
    ∧ StartupEv.createTrainingState ∉ trainingStartupTrace argsBf16Dist :=
  ⟨(precision_error_stages argsFp64).1 (by decide),
   ((precision_error_stages argsBf16Dist).2 (Or.inl rfl)).1⟩

theorem inferenceLoop_eq_map {α β γ δ : Type} (toDevice : α → α) (net : GradMode → α → β)
    (softmax1 : β → β) (argmax1 : β → γ) (cpuNumpy : γ → δ) (l : List (α × String)) :
    ∀ acc, inferenceLoop toDevice net softmax1 argmax1 cpuNumpy l acc
      = acc.reverse ++ l.map (fun p =>
          (p.2, cpuNumpy (argmax1 (softmax1 (net GradMode.disabled (toDevice p.1)))))) := by
  induction l with
  | nil =>
    intro acc
    simp [inferenceLoop]
  | cons p rest ih =>
    intro acc
    obtain ⟨inputs, filename⟩ := p
    rw [inferenceLoop, ih]
    simp

/-- C10: the inference driver sets the network to evaluation mode and, for
each loader batch in yield order, appends exactly one (filename, prediction)
pair whose prediction is the argmax over dimension 1 of the softmaxed
network output, computed with gradients disabled; it returns the complete
list and the network is still in evaluation mode on return. -/
theorem inference_driver_spec {α β γ δ : Type} (start_mode : Mode) (toDevice : α → α)
    (net : GradMode → α → β) (softmax1 : β → β) (argmax1 : β → γ) (cpuNumpy : γ → δ)
    (inference_loader : List (α × String)) :
    (inference start_mode toDevice net softmax1 argmax1 cpuNumpy inference_loader).1
      = inference_loader.map (fun p =>
          (p.2, cpuNumpy (argmax1 (softmax1 (net GradMode.disabled (toDevice p.1))))))
    ∧ (inference start_mode toDevice net softmax1 argmax1 cpuNumpy inference_loader).2
      = Mode.eval := by
  refine ⟨?_, rfl⟩
  show inferenceLoop toDevice net softmax1 argmax1 cpuNumpy inference_loader [] = _
  rw [inferenceLoop_eq_map]
  simp
